import Mathlib

/-
Verification of the AEFR editor core (`src/main.rs`).

The development shallowly embeds the parts of the program the claims talk
about:

* the console command parser `AefrApp::parse_and_send_command`,
* the asynchronous resource loader `SpineObject::load_async_no_gpu`
  (file system and the rusty_spine / image parsers are abstracted into a
  `LoadEnv` of parse outcomes, since they are external libraries),
* the command drain `AefrApp::handle_async_events`, one step per command,
* the scheduler sizing in `AefrScheduler::new`,
* the per-frame update `SpineObject::update_parallel` and the mesh
  generation `SpineObject::paint` / `SpineObject::push_to_mesh`
  (f32 values are modelled as rationals; the spine runtime's pose
  computation is abstracted into a `poseOf` field of the skeleton data),
* the serde round trip of `Scenario` (the derived JSON encoders and
  decoders are embedded over an inductive `Json` type).

Rust strings are modelled as `List Char` (`Str`); the console commands the
program understands are ASCII, so byte indices coincide with character
indices and ASCII case folding models `str::to_lowercase` faithfully on
every input exercised here.  Operations that can panic (out-of-bounds
string slicing, out-of-bounds `Vec` indexing) are modelled in `Except`.
-/

namespace AEFR

/-- Rust `&str` restricted to its character content. -/
abbrev Str := List Char

/-- ASCII case folding, the fragment of `str::to_lowercase` relevant to the
console keywords. -/
def charLower (c : Char) : Char :=
  if 'A' ≤ c ∧ c ≤ 'Z' then Char.ofNat (c.toNat + 32) else c

/-- `str::to_lowercase` (ASCII fragment). -/
def toLowerStr (s : Str) : Str := s.map charLower

/-- `str::trim` (ASCII whitespace fragment). -/
def trimStr (s : Str) : Str :=
  ((s.dropWhile Char.isWhitespace).reverse.dropWhile Char.isWhitespace).reverse

/-- `str::starts_with`. -/
def startsWithStr (p s : Str) : Bool :=
  decide (s.take p.length = p)

/-- Rust `str::splitn(2, sep)`: split at the first separator only; always
returns at least one piece. -/
def splitn2 (sep : Char) (s : Str) : List Str :=
  let pre := s.takeWhile (fun c => c ≠ sep)
  if pre.length = s.length then [s] else [pre, s.drop (pre.length + 1)]

/-- Rust `str::split(p)`: split at every separator, keeping empty pieces. -/
def splitOnP (p : Char → Bool) : Str → List Str
  | [] => [[]]
  | c :: cs =>
    if p c then [] :: splitOnP p cs
    else
      match splitOnP p cs with
      | [] => [[c]]
      | h :: t => (c :: h) :: t

/-- Rust `str::split_whitespace`: split on whitespace, dropping empty
pieces. -/
def splitWhitespace (s : Str) : List Str :=
  (splitOnP Char.isWhitespace s).filter (fun w => ¬ w.isEmpty)

/-- Rust `str::split('|')`. -/
def splitPipe (s : Str) : List Str := splitOnP (fun c => c = '|') s

/-- `usize::from_str` (as used by `parse::<usize>()`): optional leading
`+`, then one or more ASCII digits, failing on 64-bit overflow. -/
def parseUsize (s : Str) : Option Nat :=
  let digits := match s with
    | '+' :: rest => rest
    | other => other
  if digits.isEmpty then none
  else if digits.all Char.isDigit then
    let n := digits.foldl (fun acc c => acc * 10 + (c.toNat - '0'.toNat)) 0
    if n < 2 ^ 64 then some n else none
  else none

/-- `str::replace("\x22", "")`: drop every double-quote character. -/
def removeQuotes (s : Str) : Str := s.filter (fun c => c ≠ '"')

/-- Rust byte slicing `&s[i..]`: panics (modelled as `Except.error`) when
`i` is past the end of the string. -/
def strSliceFrom (s : Str) (i : Nat) : Except String Str :=
  if i ≤ s.length then .ok (s.drop i) else .error "byte index out of bounds"

/-- Rust `Vec` indexing `v[i]`: panics when `i` is out of bounds. -/
def vecIndex (v : List α) (i : Nat) : Except String α :=
  match v.get? i with
  | some a => .ok a
  | none => .error "index out of bounds"

-- ==========================================================================
-- Skeletal character model (`SpineObject` and the rusty_spine data it owns)
-- ==========================================================================

/-- `rusty_spine::Color` (rgba in 0.0–1.0). -/
structure ColorM where
  r : ℚ
  g : ℚ
  b : ℚ
  a : ℚ

/-- A region attachment as `paint` consumes it: `compute_world_vertices`
writes exactly 8 floats (4 corners) and `region.uvs()` is a `[f32; 8]`;
both are modelled as functions on the 8 component indices. -/
structure RegionAttachmentM where
  worldVerts : Nat → ℚ
  uvs : Nat → ℚ
  color : ColorM

/-- A mesh attachment as `paint` consumes it: `world_vertices_length`
floats of world vertices and uvs, plus its own triangle index list
(`triangles()` with `triangles_count()` entries). -/
structure MeshAttachmentM where
  worldVerticesLength : Nat
  worldVert : Nat → ℚ
  uv : Nat → ℚ
  triangles : List Nat
  color : ColorM

/-- The attachment bound to a slot. -/
inductive AttachmentM where
  | region (r : RegionAttachmentM)
  | meshA (m : MeshAttachmentM)

/-- One slot of the skeleton instance's draw order. -/
structure SlotM where
  attachment : Option AttachmentM
  color : ColorM

/-- One animation track entry (`AnimationState::set_animation(0, anim, loop)`). -/
structure TrackEntryM where
  anim : Str
  loopFlag : Bool

/-- `rusty_spine::AnimationState`: the track 0 entry plus the accumulated
animation time advanced by `AnimationState::update`. -/
structure AnimStateM where
  track : Option TrackEntryM
  time : ℚ

/-- `rusty_spine::SkeletonData`: the immutable template.  `animations` is
the clip name list; `setupPose` is the draw order of a freshly created
`Skeleton`; `poseOf` abstracts the spine runtime's pose computation
(setup pose + `state.apply` + world transforms) as a function of the
animation state. -/
structure SkeletonDataM where
  animations : List Str
  setupPose : List SlotM
  poseOf : AnimStateM → List SlotM

/-- `egui::ColorImage` (decoded pixels; only its identity matters here). -/
structure ImageM where
  width : Nat
  height : Nat

/-- `SpineObject`: skeleton instance (its current draw order), animation
state, optional GPU texture id, screen position and scale. -/
structure CharModel where
  skeletonData : SkeletonDataM
  state : AnimStateM
  skeleton : List SlotM
  texture_id : Option Nat
  position : ℚ × ℚ
  scale : ℚ

/-- `AppCommand`: the command-bus variants. -/
inductive AppCommand where
  | Dialogue (name affiliation content : Str)
  | RequestLoad (slot_idx : Nat) (path : Str)
  | LoadSuccess (idx : Nat) (obj : CharModel) (img : ImageM) (page : Str) (anims : List Str)
  | RemoveCharacter (idx : Nat)
  | LoadBackground (path : Str)
  | LoadBackgroundSuccess (img : ImageM)
  | PlayBgm (path : Str)
  | PlaySe (path : Str)
  | AudioReady (data : List Nat) (is_bgm : Bool)
  | StopBgm
  | SetAnimation (slot_idx : Nat) (anim_name : Str) (loop_anim : Bool)
  | Log (msg : Str)

/-- Whether a command is a `LoadSuccess`. -/
def AppCommand.isLoadSuccess : AppCommand → Bool
  | .LoadSuccess _ _ _ _ _ => true
  | _ => false

-- ==========================================================================
-- Console parser (`AefrApp::parse_and_send_command`)
-- ==========================================================================

/-- Result of one `parse_and_send_command` call: the console log lines it
appended and the commands it sent, or a panic (with the log lines appended
before the panic). -/
inductive ParseOutcome where
  | ok (logs : List Str) (cmds : List AppCommand)
  | panicked (logs : List Str) (msg : String)

/-- `AefrApp::parse_and_send_command`, translated straight from the source:
trim; return on empty; echo the line into the console log; lowercase; then
branch on the keyword.  The `load` branch slices `parts[0][5..]` and the
`anim` branch indexes `parts[2]`, both of which can panic. -/
def parse_and_send_command (input : Str) : ParseOutcome :=
  let input_trimmed := trimStr input
  if input_trimmed.isEmpty then .ok [] []
  else
    let logs := [('>' :: ' ' :: input_trimmed)]
    let cmd_lower := toLowerStr input_trimmed
    if startsWithStr ("load ".toList) cmd_lower then
      let parts := splitn2 ' ' input_trimmed
      if parts.length = 2 then
        match strSliceFrom (parts.headD []) 5 with
        | .error e => .panicked logs e
        | .ok sliced =>
          match parseUsize (trimStr sliced) with
          | some idx =>
            .ok logs [.RequestLoad idx (removeQuotes (parts.getD 1 []))]
          | none => .ok logs []
      else .ok logs []
    else if startsWithStr ("anim ".toList) cmd_lower then
      let parts := splitWhitespace input_trimmed
      if 2 ≤ parts.length then
        match parseUsize (parts.getD 1 []) with
        | some idx =>
          match vecIndex parts 2 with
          | .error e => .panicked logs e
          | .ok anim_name =>
            let loop_anim := match parts.get? 3 with
              | none => true
              | some s => toLowerStr s = "true".toList
            .ok logs [.SetAnimation idx anim_name loop_anim]
        | none => .ok logs []
      else .ok logs []
    else if startsWithStr ("bgm ".toList) cmd_lower then
      .ok logs [.PlayBgm (removeQuotes (trimStr (input_trimmed.drop 4)))]
    else if startsWithStr ("se ".toList) cmd_lower then
      .ok logs [.PlaySe (removeQuotes (trimStr (input_trimmed.drop 3)))]
    else if cmd_lower = "stop".toList then
      .ok logs [.StopBgm]
    else if startsWithStr ("talk ".toList) cmd_lower then
      let p := splitPipe (input_trimmed.drop 5)
      if p.length = 3 then
        .ok logs [.Dialogue (p.getD 0 []) (p.getD 1 []) (p.getD 2 [])]
      else .ok logs []
    else if startsWithStr ("bg ".toList) cmd_lower then
      .ok logs [.LoadBackground (removeQuotes (trimStr (input_trimmed.drop 3)))]
    else .ok logs []

-- ==========================================================================
-- Resource loader (`SpineObject::load_async_no_gpu`)
-- ==========================================================================

/-- Outcomes of the external file-system and parser calls a single load
request performs: the atlas parse, the page list of a parsed atlas, the
`atlas_path.parent()` lookup, the texture image decode, existence of the
`.skel` / `.json` siblings, and the two skeleton parsers.  Abstracting
them lets the loader's own control flow be stated exactly. -/
structure LoadEnv where
  atlas : Except Str Unit
  pages : List Str
  parent : Option Str
  image : Except Str ImageM
  skelExists : Bool
  jsonExists : Bool
  binaryParse : Except Str SkeletonDataM
  jsonParse : Except Str SkeletonDataM

/-- `map_err` for loader error messages. -/
def mapErrPrefix (p : Str) : Except Str SkeletonDataM → Except Str SkeletonDataM
  | .ok v => .ok v
  | .error e => .error (p ++ e)

/-- `SpineObject::load_async_no_gpu`: atlas parse, first page, parent
directory, image decode, then the skeleton data — binary when the `.skel`
file exists, otherwise JSON when the `.json` file exists, otherwise
`Missing .skel or .json` — and finally the constructed object with the
first clip playing, looping. -/
def load_async_no_gpu (env : LoadEnv) :
    Except Str (CharModel × ImageM × Str × List Str) :=
  match env.atlas with
  | .error e => .error ("Atlas Error: ".toList ++ e)
  | .ok _ =>
    match env.pages.head? with
    | none => .error ("Atlas has no pages".toList)
    | some page_name =>
      match env.parent with
      | none => .error ("Invalid path".toList)
      | some _ =>
        match env.image with
        | .error e => .error ("Image Load Error: ".toList ++ e)
        | .ok img =>
          let skelRes :=
            if env.skelExists then
              mapErrPrefix ("Binary load failed: ".toList) env.binaryParse
            else if env.jsonExists then
              mapErrPrefix ("JSON load failed: ".toList) env.jsonParse
            else .error ("Missing .skel or .json".toList)
          match skelRes with
          | .error e => .error e
          | .ok sd =>
            let anim_names := sd.animations
            let state0 : AnimStateM := { track := none, time := 0 }
            let state := match sd.animations.head? with
              | some anim => { state0 with track := some ⟨anim, true⟩ }
              | none => state0
            .ok ({ skeletonData := sd, state := state,
                   skeleton := sd.setupPose, texture_id := none,
                   position := (0, 0), scale := 9 / 20 },
                 img, page_name, anim_names)

/-- Which skeleton parsers one load request runs, following the same
control flow as `load_async_no_gpu` step 3 (instrumentation for the
fallback claim): the binary parser runs iff `.skel` exists, and the JSON
parser runs iff `.skel` does not exist but `.json` does. -/
inductive ParseAttempt where
  | binary
  | json
deriving DecidableEq

/-- The skeleton parse attempts of one load request, in order. -/
def loadParseAttempts (env : LoadEnv) : List ParseAttempt :=
  match env.atlas with
  | .error _ => []
  | .ok _ =>
    match env.pages.head? with
    | none => []
    | some _ =>
      match env.parent with
      | none => []
      | some _ =>
        match env.image with
        | .error _ => []
        | .ok _ =>
          if env.skelExists then [.binary]
          else if env.jsonExists then [.json]
          else []

/-- The commands a loader worker thread sends for one request (the body of
the `thread::spawn` closure in the `RequestLoad` arm): one `LoadSuccess`
on success, one `Log` on failure. -/
def workerCommands (env : LoadEnv) (slot_idx : Nat) : List AppCommand :=
  match load_async_no_gpu env with
  | .ok (obj, img, page, anims) => [.LoadSuccess slot_idx obj img page anims]
  | .error e => [.Log ("[错误] ".toList ++ e)]

-- ==========================================================================
-- Per-character operations (`SpineObject`)
-- ==========================================================================

/-- `MAX_DT`: the 33 ms frame-time cap. -/
def MAX_DT : ℚ := 33 / 1000

/-- `SpineObject::set_animation_by_name`: look the clip up in the shared
skeleton data; set track 0 and return `true` when found, otherwise leave
the object alone and return `false`. -/
def set_animation_by_name (c : CharModel) (anim_name : Str) (loop_anim : Bool) :
    CharModel × Bool :=
  match c.skeletonData.animations.find? (fun a => a = anim_name) with
  | some anim =>
    ({ c with state := { c.state with track := some ⟨anim, loop_anim⟩ } }, true)
  | none => (c, false)

/-- `SpineObject::update_parallel`: clamp `dt` to `MAX_DT`, advance the
animation state by the clamped delta, then rederive the skeleton pose
(`set_to_setup_pose` + `apply` + `update_world_transform` + `update_cache`,
abstracted as `poseOf`). -/
def update_parallel (c : CharModel) (dt : ℚ) : CharModel :=
  let dt := min dt MAX_DT
  let state := { c.state with time := c.state.time + dt }
  { c with state := state, skeleton := c.skeletonData.poseOf state }

-- ==========================================================================
-- Mesh generation (`SpineObject::paint` / `SpineObject::push_to_mesh`)
-- ==========================================================================

/-- Rust `as u8` on an f32: saturating truncation into 0–255. -/
def f32_as_u8 (q : ℚ) : Nat := (min 255 (max 0 ⌊q⌋)).toNat

/-- An `egui::epaint::Vertex`: screen position, uv, premultiplied color. -/
structure VertexM where
  pos : ℚ × ℚ
  uv : ℚ × ℚ
  color : Nat × Nat × Nat × Nat

/-- An `egui::Mesh`: vertex list and triangle index list. -/
structure MeshM where
  vertices : List VertexM
  indices : List Nat

/-- `SpineObject::push_to_mesh`: multiply the slot tint into the
attachment tint, append `min(uvs.len()/2, w_v.len()/2)` vertices (Y
negated, scaled, translated), and append the triangle indices offset by
the vertex count already in the mesh. -/
def push_to_mesh (c : CharModel) (mesh : MeshM) (w_v uvs : List ℚ)
    (tris : List Nat) (s_c att_c : ColorM) : MeshM :=
  let color := (f32_as_u8 (s_c.r * att_c.r * 255),
                f32_as_u8 (s_c.g * att_c.g * 255),
                f32_as_u8 (s_c.b * att_c.b * 255),
                f32_as_u8 (s_c.a * att_c.a * 255))
  let count := min (uvs.length / 2) (w_v.length / 2)
  let idx_offset := mesh.vertices.length
  let verts := (List.range count).map (fun i =>
    ({ pos := ((w_v.getD (2 * i) 0) * c.scale + c.position.1,
               -(w_v.getD (2 * i + 1) 0) * c.scale + c.position.2),
       uv := (uvs.getD (2 * i) 0, uvs.getD (2 * i + 1) 0),
       color := color } : VertexM))
  { vertices := mesh.vertices ++ verts,
    indices := mesh.indices ++ tris.map (fun t => idx_offset + t) }

/-- The draw-order loop of `SpineObject::paint`: skip empty slots; a
region attachment contributes its 8 world-vertex floats, its 8 uv floats
and the fixed quad fan; a mesh attachment contributes
`world_vertices_length` floats of world vertices and uvs and its own
triangle list. -/
def paintSlots (c : CharModel) : List SlotM → MeshM → MeshM
  | [], mesh => mesh
  | slot :: rest, mesh =>
    match slot.attachment with
    | none => paintSlots c rest mesh
    | some (.region r) =>
      paintSlots c rest
        (push_to_mesh c mesh ((List.range 8).map r.worldVerts)
          ((List.range 8).map r.uvs) [0, 1, 2, 2, 3, 0] slot.color r.color)
    | some (.meshA m) =>
      let len := m.worldVerticesLength
      paintSlots c rest
        (push_to_mesh c mesh ((List.range len).map m.worldVert)
          ((List.range len).map m.uv) m.triangles slot.color m.color)

/-- `SpineObject::paint`: returns early (producing no mesh) when the
texture id is unset, otherwise builds the mesh over the draw order. -/
def paint (c : CharModel) : Option MeshM :=
  match c.texture_id with
  | none => none
  | some _ => some (paintSlots c c.skeleton { vertices := [], indices := [] })

/-- The vertex count the specification assigns to one draw-order slot:
0 when no attachment is active, 4 for a region attachment, the declared
vertex count for a mesh attachment. -/
def slotVertexCount (s : SlotM) : Nat :=
  match s.attachment with
  | none => 0
  | some (.region _) => 4
  | some (.meshA m) => m.worldVerticesLength / 2

/-- The triangle-index count the specification assigns to one draw-order
slot: 0 when no attachment is active, 6 for a region attachment, the
attachment's own triangle-list length for a mesh attachment. -/
def slotIndexCount (s : SlotM) : Nat :=
  match s.attachment with
  | none => 0
  | some (.region _) => 6
  | some (.meshA m) => m.triangles.length

-- ==========================================================================
-- Frame orchestrator state and command drain (`AefrApp::handle_async_events`)
-- ==========================================================================

/-- One `Scene` of the running scenario as the drain mutates it. -/
structure SceneM where
  bg_path : Option Str
  bgm_path : Option Str
  char_paths : List (Option Str)
  char_anims : List (Option Str)
  speaker_name : Str
  speaker_aff : Str
  dialogue_content : Str

/-- The fields of `AefrApp` the command drain can touch: the scenario and
scene cursor, the typewriter state, the console log, the 5 character
slots, the background texture, whether the audio manager initialised, and
a counter standing for `ctx.load_texture` handle allocation. -/
structure AppState where
  scenario : List SceneM
  current_scene_idx : Nat
  target_chars : Str
  visible_count : Nat
  console_logs : List Str
  characters : List (Option CharModel)
  background : Option Nat
  audio_on : Bool
  next_tex : Nat

/-- `AefrApp::sync_scene_to_ui`. -/
def sync_scene_to_ui (st : AppState) : AppState :=
  match st.scenario.get? st.current_scene_idx with
  | some scene => { st with target_chars := scene.dialogue_content }
  | none => st

/-- One arm of the `match` in `AefrApp::handle_async_events`, i.e. the
effect of draining a single command on the UI thread.  Indexing
`self.scenario.scenes[idx]` or `self.characters[idx] = None` out of
bounds panics, modelled as `Except.error`; thread spawns and audio-sink
calls are external effects with no footprint in this state. -/
def handleCommand (st : AppState) : AppCommand → Except String AppState
  | .Dialogue name affiliation content =>
    match st.scenario.get? st.current_scene_idx with
    | none => .error "index out of bounds"
    | some scene =>
      let scene := { scene with speaker_name := name, speaker_aff := affiliation,
                                dialogue_content := content }
      let st := { st with scenario := st.scenario.set st.current_scene_idx scene }
      let st := sync_scene_to_ui st
      .ok { st with visible_count := 0 }
  | .Log msg => .ok { st with console_logs := st.console_logs ++ [msg] }
  | .RequestLoad _ path =>
    -- spawns the loader worker (modelled separately by `workerCommands`)
    .ok { st with console_logs := st.console_logs ++ [("[解析] ".toList ++ path)] }
  | .LoadSuccess idx obj _ _ _ =>
    match st.characters.get? idx with
    | some _ =>
      let loaded := { obj with texture_id := some st.next_tex }
      .ok { st with characters := st.characters.set idx (some loaded),
                    next_tex := st.next_tex + 1 }
    | none => .ok st
  | .RemoveCharacter idx =>
    if idx < st.characters.length then
      .ok { st with characters := st.characters.set idx none }
    else .error "index out of bounds"
  | .LoadBackground path =>
    match st.scenario.get? st.current_scene_idx with
    | none => .error "index out of bounds"
    | some scene =>
      .ok { st with scenario :=
              st.scenario.set st.current_scene_idx { scene with bg_path := some path } }
  | .LoadBackgroundSuccess _ =>
    .ok { st with background := some st.next_tex, next_tex := st.next_tex + 1 }
  | .SetAnimation slot_idx anim_name loop_anim =>
    match st.characters.get? slot_idx with
    | some (some c) =>
      .ok { st with characters :=
              st.characters.set slot_idx (some (set_animation_by_name c anim_name loop_anim).1) }
    | _ => .ok st
  | .PlayBgm path =>
    match st.scenario.get? st.current_scene_idx with
    | none => .error "index out of bounds"
    | some scene =>
      .ok { st with scenario :=
              st.scenario.set st.current_scene_idx { scene with bgm_path := some path } }
  | .PlaySe _ => .ok st
  | .AudioReady _ _ => .ok st
  | .StopBgm => .ok st

/-- Draining a list of commands in order (the `while let Ok(cmd)` loop). -/
def handleCommands (st : AppState) : List AppCommand → Except String AppState
  | [] => .ok st
  | c :: cs =>
    match handleCommand st c with
    | .ok st' => handleCommands st' cs
    | .error e => .error e

-- ==========================================================================
-- Scheduler sizing (`AefrScheduler::new`)
-- ==========================================================================

/-- The thread count `AefrScheduler::new` hands to the pool builder as a
function of `available_parallelism()`. -/
def worker_count (logic_cores : Nat) : Nat :=
  if logic_cores > 2 then logic_cores - 2 else 1

-- ==========================================================================
-- Scenario persistence (serde_json round trip of `Scenario`)
-- ==========================================================================

/-- The JSON fragment serde_json uses for `Scenario`. -/
inductive Json where
  | null
  | str (s : String)
  | arr (items : List Json)
  | obj (fields : List (String × Json))

/-- The `[Option<String>; 5]` arrays of a `Scene`. -/
structure Opt5 where
  a0 : Option String
  a1 : Option String
  a2 : Option String
  a3 : Option String
  a4 : Option String

/-- `Scene` as persisted: the two optional resource paths, the two
5-entry optional arrays, and the three dialogue strings. -/
structure SceneP where
  bg_path : Option String
  bgm_path : Option String
  char_paths : Opt5
  char_anims : Opt5
  speaker_name : String
  speaker_aff : String
  dialogue_content : String

/-- `Scenario` as persisted. -/
structure ScenarioP where
  scenes : List SceneP

/-- serde serialization of `Option<String>`: `None` becomes `null`. -/
def optStrToJson : Option String → Json
  | none => .null
  | some s => .str s

/-- serde deserialization of `Option<String>`. -/
def optStrFromJson : Json → Option (Option String)
  | .null => some none
  | .str s => some (some s)
  | _ => none

/-- serde serialization of `[Option<String>; 5]`: a 5-element array. -/
def opt5ToJson (x : Opt5) : Json :=
  .arr [optStrToJson x.a0, optStrToJson x.a1, optStrToJson x.a2,
        optStrToJson x.a3, optStrToJson x.a4]

/-- serde deserialization of `[Option<String>; 5]`: exactly 5 elements. -/
def opt5FromJson : Json → Option Opt5
  | .arr [j0, j1, j2, j3, j4] => do
    let a0 ← optStrFromJson j0
    let a1 ← optStrFromJson j1
    let a2 ← optStrFromJson j2
    let a3 ← optStrFromJson j3
    let a4 ← optStrFromJson j4
    pure ⟨a0, a1, a2, a3, a4⟩
  | _ => none

/-- Field lookup in a serialized JSON object. -/
def lookupField (fields : List (String × Json)) (k : String) : Option Json :=
  (fields.find? (fun p => p.1 = k)).map (fun p => p.2)

/-- The derived `Serialize` for `Scene`: an object with the seven fields
in declaration order. -/
def sceneToJson (sc : SceneP) : Json :=
  .obj [("bg_path", optStrToJson sc.bg_path),
        ("bgm_path", optStrToJson sc.bgm_path),
        ("char_paths", opt5ToJson sc.char_paths),
        ("char_anims", opt5ToJson sc.char_anims),
        ("speaker_name", .str sc.speaker_name),
        ("speaker_aff", .str sc.speaker_aff),
        ("dialogue_content", .str sc.dialogue_content)]

/-- String field deserialization. -/
def strFromJson : Json → Option String
  | .str s => some s
  | _ => none

/-- The derived `Deserialize` for `Scene`: look each field up by name and
decode it. -/
def sceneFromJson : Json → Option SceneP
  | .obj fields => do
    let bg ← lookupField fields "bg_path" >>= optStrFromJson
    let bgm ← lookupField fields "bgm_path" >>= optStrFromJson
    let cp ← lookupField fields "char_paths" >>= opt5FromJson
    let ca ← lookupField fields "char_anims" >>= opt5FromJson
    let name ← lookupField fields "speaker_name" >>= strFromJson
    let aff ← lookupField fields "speaker_aff" >>= strFromJson
    let content ← lookupField fields "dialogue_content" >>= strFromJson
    pure ⟨bg, bgm, cp, ca, name, aff, content⟩
  | _ => none

/-- The derived `Serialize` for `Scenario`. -/
def scenarioToJson (s : ScenarioP) : Json :=
  .obj [("scenes", .arr (s.scenes.map sceneToJson))]

/-- Element-wise deserialization of a scene array (serde's `Vec<Scene>`
sequence deserializer: every element must parse). -/
def scenesFromJson : List Json → Option (List SceneP)
  | [] => some []
  | j :: rest => do
    let sc ← sceneFromJson j
    let scs ← scenesFromJson rest
    pure (sc :: scs)

/-- The derived `Deserialize` for `Scenario`. -/
def scenarioFromJson : Json → Option ScenarioP
  | .obj fields => do
    let js ← lookupField fields "scenes"
    match js with
    | .arr items => do
      let scs ← scenesFromJson items
      pure ⟨scs⟩
    | _ => none
  | _ => none

-- ==========================================================================
-- Concrete sample data, used to evaluate the definitions at closed inputs
-- ==========================================================================

/-- A sample parsed skeleton definition with two clips. -/
def sdW : SkeletonDataM :=
  { animations := ["idle".toList, "walk".toList], setupPose := [],
    poseOf := fun _ => [] }

/-- A sample loaded character (no texture yet). -/
def cW : CharModel :=
  { skeletonData := sdW, state := { track := none, time := 0 }, skeleton := [],
    texture_id := none, position := (0, 0), scale := 9 / 20 }

/-- A load environment in which the atlas and image succeed, both a
`.skel` and a `.json` sibling exist, the binary skeleton parse fails and
the JSON parse would succeed. -/
def envNoFallback : LoadEnv :=
  { atlas := .ok (), pages := ["page.png".toList], parent := some [],
    image := .ok ⟨2, 2⟩, skelExists := true, jsonExists := true,
    binaryParse := .error ("corrupt".toList), jsonParse := .ok sdW }

/-- Opaque white. -/
def whiteC : ColorM := ⟨1, 1, 1, 1⟩

/-- A sample region attachment. -/
def regionW : RegionAttachmentM :=
  { worldVerts := fun i => (i : ℚ), uvs := fun _ => 0, color := whiteC }

/-- A sample mesh attachment with 3 declared vertices and one triangle. -/
def meshAttW : MeshAttachmentM :=
  { worldVerticesLength := 6, worldVert := fun _ => 0, uv := fun _ => 0,
    triangles := [0, 1, 2], color := whiteC }

/-- A sample character ready to paint: a region slot, a hidden slot and a
mesh slot. -/
def cPaintW : CharModel :=
  { cW with texture_id := some 0,
            skeleton := [⟨some (.region regionW), whiteC⟩, ⟨none, whiteC⟩,
                         ⟨some (.meshA meshAttW), whiteC⟩] }

/-- The mesh `paint` produces for `cPaintW`. -/
def meshPaintW : MeshM :=
  paintSlots cPaintW cPaintW.skeleton { vertices := [], indices := [] }

/-- A sample application state: slot 0 populated, slots 1–4 empty. -/
def appW : AppState :=
  { scenario := [], current_scene_idx := 0, target_chars := [],
    visible_count := 0, console_logs := [],
    characters := [some cW, none, none, none, none], background := none,
    audio_on := false, next_tex := 0 }

-- ==========================================================================
-- Helper lemmas
-- ==========================================================================

/-- Writing back the element already stored at an index leaves a list
unchanged. -/
theorem list_set_get?_self {α : Type _} :
    ∀ (l : List α) (i : Nat) (a : α), l.get? i = some a → l.set i a = l
  | [], _, _, h => by simp at h
  | b :: t, 0, a, h => by
    injection h with h
    subst h
    rfl
  | b :: t, i + 1, a, h => by
    rw [List.set_cons_succ, list_set_get?_self t i a h]

/-- `set_animation_by_name` with an unknown clip name returns the object
unchanged paired with `false`. -/
theorem set_animation_by_name_not_found (c : CharModel) (anim_name : Str)
    (loop_anim : Bool) (h : anim_name ∉ c.skeletonData.animations) :
    set_animation_by_name c anim_name loop_anim = (c, false) := by
  unfold set_animation_by_name
  have hf : c.skeletonData.animations.find? (fun a => a = anim_name) = none := by
    rw [List.find?_eq_none]
    intro x hx hpx
    exact h ((of_decide_eq_true hpx) ▸ hx)
  rw [hf]

-- ==========================================================================
-- Claims
-- ==========================================================================

/-- C1: contrary to the claim, `parse_and_send_command` panics on every
well-formed `load <slot> <path>` line and never sends a `RequestLoad`:
`splitn(2, ' ')` makes `parts[0]` the 4-byte keyword `load`, so the slice
`parts[0][5..]` is out of bounds.  Evaluated here at the failing input
`load 0 a.atlas`: the echoed line is logged, then the call panics. -/
theorem load_command_panics :
    parse_and_send_command ("load 0 a.atlas".toList) =
      ParseOutcome.panicked ["> load 0 a.atlas".toList] "byte index out of bounds" :=
  rfl

/-- C2: contrary to the claim, `parse_and_send_command` can panic on a
malformed command: `anim 0` (clip name missing) passes the
`parts.len() >= 2` guard, parses the slot index, then indexes `parts[2]`
out of bounds.  Evaluated here at that failing input. -/
theorem anim_command_panics :
    parse_and_send_command ("anim 0".toList) =
      ParseOutcome.panicked ["> anim 0".toList] "index out of bounds" :=
  rfl

/-- C5: for every logical core count n ≥ 1 the scheduler's worker-pool
size equals max(1, n − 2); the boundary values 1, 2, 3, 4 give pool sizes
1, 1, 1, 2. -/
theorem worker_count_matches_spec (n : Nat) (h : 1 ≤ n) :
    worker_count n = max 1 (n - 2) ∧
      worker_count 1 = 1 ∧ worker_count 2 = 1 ∧
      worker_count 3 = 1 ∧ worker_count 4 = 2 := by
  refine ⟨?_, by decide, by decide, by decide, by decide⟩
  unfold worker_count
  split <;> omega

/-- Witness for C5 at n = 4. -/
theorem worker_count_matches_spec_witness :
    worker_count 4 = max 1 (4 - 2) :=
  (worker_count_matches_spec 4 (by decide)).1

/-- C6: `update_parallel` advances the animation state by exactly
min(dt, MAX_DT); in particular any dt above the 33 ms cap is applied as
exactly the cap. -/
theorem update_parallel_applies_clamped_dt (c : CharModel) (dt : ℚ) :
    (update_parallel c dt).state.time = c.state.time + min dt MAX_DT ∧
      (MAX_DT < dt →
        (update_parallel c dt).state.time = c.state.time + MAX_DT) := by
  refine ⟨rfl, fun h => ?_⟩
  show c.state.time + min dt MAX_DT = c.state.time + MAX_DT
  rw [min_eq_right (le_of_lt h)]

/-- Witness for C6 at dt = 1 s (above the cap). -/
theorem update_parallel_applies_clamped_dt_witness :
    (update_parallel cW 1).state.time = cW.state.time + MAX_DT :=
  (update_parallel_applies_clamped_dt cW 1).2 (by norm_num [MAX_DT])

/-- C9: draining a `SetAnimation` command whose slot index is out of
range, whose slot is empty, or whose clip name the slot's skeleton does
not know, leaves the application state unchanged; and
`set_animation_by_name` returns `false` without modifying the object when
the clip name is unknown. -/
theorem set_animation_invalid_is_noop (st : AppState) (slot_idx : Nat)
    (anim_name : Str) (loop_anim : Bool)
    (h : st.characters.length ≤ slot_idx ∨
         st.characters.get? slot_idx = some none ∨
         ∃ c, st.characters.get? slot_idx = some (some c) ∧
           anim_name ∉ c.skeletonData.animations) :
    handleCommand st (.SetAnimation slot_idx anim_name loop_anim) = .ok st ∧
      ∀ c : CharModel, anim_name ∉ c.skeletonData.animations →
        set_animation_by_name c anim_name loop_anim = (c, false) := by
  refine ⟨?_, fun c hc => set_animation_by_name_not_found c anim_name loop_anim hc⟩
  rcases h with h | h | ⟨c, hc, hmem⟩
  · have hnone : st.characters.get? slot_idx = none := List.get?_eq_none.mpr h
    simp only [handleCommand, hnone]
  · simp only [handleCommand, h]
  · simp only [handleCommand, hc,
      set_animation_by_name_not_found c anim_name loop_anim hmem,
      list_set_get?_self st.characters slot_idx (some c) hc]

/-- Witness for C9: clip `nope` is unknown to the character in slot 0. -/
theorem set_animation_invalid_is_noop_witness :
    handleCommand appW (.SetAnimation 0 ("nope".toList) true) = .ok appW :=
  (set_animation_invalid_is_noop appW 0 ("nope".toList) true
    (Or.inr (Or.inr ⟨cW, rfl, by decide⟩))).1

/-- C10: draining a `LoadSuccess` whose slot index is 5 or more (outside
the 5 character slots) leaves the whole state unchanged — the payload is
discarded without a panic. -/
theorem load_success_out_of_range_is_noop (st : AppState) (idx : Nat)
    (obj : CharModel) (img : ImageM) (page : Str) (anims : List Str)
    (hlen : st.characters.length = 5) (hidx : 5 ≤ idx) :
    handleCommand st (.LoadSuccess idx obj img page anims) = .ok st := by
  have hnone : st.characters.get? idx = none := List.get?_eq_none.mpr (by omega)
  simp only [handleCommand, hnone]

/-- Witness for C10 at slot index 5. -/
theorem load_success_out_of_range_is_noop_witness :
    handleCommand appW (.LoadSuccess 5 cW ⟨1, 1⟩ ("p".toList) []) = .ok appW :=
  load_success_out_of_range_is_noop appW 5 cW ⟨1, 1⟩ ("p".toList) [] rfl
    (by decide)

/-- C3 counterexample: with the atlas and image succeeding, a `.skel`
file present whose binary parse fails, and a `.json` sibling whose parse
would succeed, the loader runs only the binary parse and reports failure —
no fallback parse is attempted. -/
theorem skel_parse_failure_no_fallback :
    envNoFallback.skelExists = true ∧ envNoFallback.jsonExists = true ∧
      envNoFallback.binaryParse = Except.error ("corrupt".toList) ∧
      loadParseAttempts envNoFallback = [ParseAttempt.binary] ∧
      ParseAttempt.json ∉ loadParseAttempts envNoFallback ∧
      load_async_no_gpu envNoFallback =
        Except.error ("Binary load failed: corrupt".toList) :=
  ⟨rfl, rfl, rfl, rfl, by decide, rfl⟩

/-- C3 (amended): the loader chooses the skeleton format by file
existence, not by parse outcome — when `.skel` exists, the binary parse is
the sole attempt and its failure aborts the load with no JSON fallback;
the JSON parse runs only when `.skel` is absent and `.json` exists; when
neither exists the load fails with `Missing .skel or .json`. -/
theorem skel_parse_strategy_by_existence (env : LoadEnv) (pg par : Str)
    (img : ImageM) (ha : env.atlas = .ok ())
    (hpg : env.pages.head? = some pg) (hpar : env.parent = some par)
    (himg : env.image = .ok img) :
    (env.skelExists = true →
      loadParseAttempts env = [ParseAttempt.binary] ∧
        ∀ e, env.binaryParse = .error e →
          load_async_no_gpu env = .error ("Binary load failed: ".toList ++ e)) ∧
    (env.skelExists = false → env.jsonExists = true →
      loadParseAttempts env = [ParseAttempt.json] ∧
        ∀ e, env.jsonParse = .error e →
          load_async_no_gpu env = .error ("JSON load failed: ".toList ++ e)) ∧
    (env.skelExists = false → env.jsonExists = false →
      loadParseAttempts env = [] ∧
        load_async_no_gpu env = .error ("Missing .skel or .json".toList)) := by
  unfold loadParseAttempts load_async_no_gpu
  rw [ha, hpg, hpar, himg]
  refine ⟨fun hs => ⟨by simp [hs], fun e he => ?_⟩,
          fun hs hj => ⟨by simp [hs, hj], fun e he => ?_⟩,
          fun hs hj => ⟨by simp [hs, hj], by simp [hs, hj]⟩⟩
  · simp [hs, he, mapErrPrefix]
  · simp [hs, hj, he, mapErrPrefix]

/-- Witness for C3's amended statement at the concrete environment of the
counterexample. -/
theorem skel_parse_strategy_by_existence_witness :
    loadParseAttempts envNoFallback = [ParseAttempt.binary] ∧
      load_async_no_gpu envNoFallback =
        Except.error ("Binary load failed: corrupt".toList) := by
  have h := (skel_parse_strategy_by_existence envNoFallback ("page.png".toList)
    [] ⟨2, 2⟩ rfl rfl rfl rfl).1 rfl
  exact ⟨h.1, h.2 ("corrupt".toList) rfl⟩

/-- C4: a loader worker whose load fails at any stage emits exactly one
`Log` command and no `LoadSuccess`; draining those commands only appends
the message to the console log, leaving the character slots (and the rest
of the state) exactly as before. -/
theorem worker_failure_emits_single_log (env : LoadEnv) (slot_idx : Nat)
    (e : Str) (h : load_async_no_gpu env = .error e) :
    workerCommands env slot_idx = [.Log ("[错误] ".toList ++ e)] ∧
      (∀ cmd ∈ workerCommands env slot_idx, cmd.isLoadSuccess = false) ∧
      (∀ st : AppState, handleCommands st (workerCommands env slot_idx) =
        .ok { st with console_logs := st.console_logs ++ [("[错误] ".toList ++ e)] }) ∧
      (∀ st st' : AppState,
        handleCommands st (workerCommands env slot_idx) = .ok st' →
          st'.characters = st.characters) := by
  have hw : workerCommands env slot_idx = [.Log ("[错误] ".toList ++ e)] := by
    unfold workerCommands
    rw [h]
  refine ⟨hw, ?_, ?_, ?_⟩
  · intro cmd hcmd
    rw [hw] at hcmd
    simp only [List.mem_singleton] at hcmd
    subst hcmd
    rfl
  · intro st
    rw [hw]
    rfl
  · intro st st' hok
    rw [hw] at hok
    injection hok with hok
    subst hok
    rfl

/-- Witness for C4 at the concrete failing environment. -/
theorem worker_failure_emits_single_log_witness :
    workerCommands envNoFallback 0 =
      [AppCommand.Log ("[错误] Binary load failed: corrupt".toList)] :=
  (worker_failure_emits_single_log envNoFallback 0
    ("Binary load failed: corrupt".toList) rfl).1

/-- `push_to_mesh` appends `min(uvs.len/2, w_v.len/2)` vertices. -/
theorem push_to_mesh_vertices_length (c : CharModel) (mesh : MeshM)
    (w_v uvs : List ℚ) (tris : List Nat) (s_c att_c : ColorM) :
    (push_to_mesh c mesh w_v uvs tris s_c att_c).vertices.length =
      mesh.vertices.length + min (uvs.length / 2) (w_v.length / 2) := by
  simp [push_to_mesh]

/-- `push_to_mesh` appends one index per triangle-list entry. -/
theorem push_to_mesh_indices_length (c : CharModel) (mesh : MeshM)
    (w_v uvs : List ℚ) (tris : List Nat) (s_c att_c : ColorM) :
    (push_to_mesh c mesh w_v uvs tris s_c att_c).indices.length =
      mesh.indices.length + tris.length := by
  simp [push_to_mesh]

/-- The draw-order loop accumulates exactly the per-slot vertex and index
counts on top of whatever is already in the mesh. -/
theorem paintSlots_lengths (c : CharModel) :
    ∀ (slots : List SlotM) (mesh : MeshM),
      (paintSlots c slots mesh).vertices.length =
        mesh.vertices.length + (slots.map slotVertexCount).sum ∧
      (paintSlots c slots mesh).indices.length =
        mesh.indices.length + (slots.map slotIndexCount).sum := by
  intro slots
  induction slots with
  | nil => intro mesh; simp [paintSlots]
  | cons s rest ih =>
    intro mesh
    obtain ⟨att, col⟩ := s
    cases att with
    | none =>
      simpa [slotVertexCount, slotIndexCount, Nat.add_assoc] using ih mesh
    | some a =>
      cases a with
      | region r =>
        have h := ih (push_to_mesh c mesh ((List.range 8).map r.worldVerts)
          ((List.range 8).map r.uvs) [0, 1, 2, 2, 3, 0] col r.color)
        constructor
        · have h1 := h.1
          rw [push_to_mesh_vertices_length] at h1
          simpa [slotVertexCount, Nat.add_assoc] using h1
        · have h2 := h.2
          rw [push_to_mesh_indices_length] at h2
          simpa [slotIndexCount, Nat.add_assoc] using h2
      | meshA m =>
        have h := ih (push_to_mesh c mesh
          ((List.range m.worldVerticesLength).map m.worldVert)
          ((List.range m.worldVerticesLength).map m.uv) m.triangles col m.color)
        constructor
        · have h1 := h.1
          rw [push_to_mesh_vertices_length] at h1
          simpa [slotVertexCount, Nat.add_assoc] using h1
        · have h2 := h.2
          rw [push_to_mesh_indices_length] at h2
          simpa [slotIndexCount, Nat.add_assoc] using h2

/-- C7: whenever `paint` produces a mesh, its vertex count is the sum over
the draw-order slots of 4 per region attachment and the declared vertex
count per mesh attachment, and its index count is the sum of 6 per region
attachment and the attachment's own triangle-list length per mesh
attachment; slots without an active attachment contribute 0 vertices and
0 indices. -/
theorem paint_mesh_counts (c : CharModel) (m : MeshM) (h : paint c = some m) :
    m.vertices.length = (c.skeleton.map slotVertexCount).sum ∧
      m.indices.length = (c.skeleton.map slotIndexCount).sum := by
  unfold paint at h
  cases htex : c.texture_id with
  | none =>
    rw [htex] at h
    cases h
  | some t =>
    rw [htex] at h
    injection h with h
    subst h
    simpa using paintSlots_lengths c c.skeleton ⟨[], []⟩

/-- Witness for C7: a region slot, a hidden slot and a 3-vertex mesh slot
give 4 + 0 + 3 = 7 vertices and 6 + 0 + 3 = 9 indices. -/
theorem paint_mesh_counts_witness :
    paint cPaintW = some meshPaintW ∧ meshPaintW.vertices.length = 7 ∧
      meshPaintW.indices.length = 9 ∧
      (cPaintW.skeleton.map slotVertexCount).sum = 7 ∧
      (cPaintW.skeleton.map slotIndexCount).sum = 9 := by
  have h := paint_mesh_counts cPaintW meshPaintW rfl
  exact ⟨rfl, h.1.trans (by rfl), h.2.trans (by rfl), by rfl, by rfl⟩

/-- `Option<String>` round-trips through its serde JSON form. -/
theorem optStr_roundtrip (o : Option String) :
    optStrFromJson (optStrToJson o) = some o := by
  cases o <;> rfl

/-- `[Option<String>; 5]` round-trips through its serde JSON form. -/
theorem opt5_roundtrip (x : Opt5) : opt5FromJson (opt5ToJson x) = some x := by
  obtain ⟨a0, a1, a2, a3, a4⟩ := x
  cases a0 <;> cases a1 <;> cases a2 <;> cases a3 <;> cases a4 <;> rfl

/-- Field-by-field reading of a serialized `Scene` object. -/
theorem sceneFromJson_obj (j1 j2 j3 j4 : Json) (n a d : String) :
    sceneFromJson (Json.obj [("bg_path", j1), ("bgm_path", j2),
      ("char_paths", j3), ("char_anims", j4), ("speaker_name", Json.str n),
      ("speaker_aff", Json.str a), ("dialogue_content", Json.str d)]) =
      (optStrFromJson j1).bind (fun bg => (optStrFromJson j2).bind (fun bgm =>
        (opt5FromJson j3).bind (fun cp => (opt5FromJson j4).bind (fun ca =>
          some ⟨bg, bgm, cp, ca, n, a, d⟩)))) :=
  rfl

/-- A `Scene` round-trips through its serde JSON form. -/
theorem scene_roundtrip (sc : SceneP) :
    sceneFromJson (sceneToJson sc) = some sc := by
  simp only [sceneToJson, sceneFromJson_obj, optStr_roundtrip, opt5_roundtrip,
    Option.some_bind]

/-- A serialized scene list deserializes element-wise. -/
theorem scenes_roundtrip (l : List SceneP) :
    scenesFromJson (l.map sceneToJson) = some l := by
  induction l with
  | nil => rfl
  | cons h t ih => simp [scenesFromJson, scene_roundtrip, ih]

/-- Reading of a serialized `Scenario` object. -/
theorem scenarioFromJson_obj (items : List Json) :
    scenarioFromJson (Json.obj [("scenes", Json.arr items)]) =
      (scenesFromJson items).bind (fun scs => some ⟨scs⟩) :=
  rfl

/-- C8: serializing any `Scenario` to JSON and deserializing the result
reproduces it field for field — speaker name, affiliation, dialogue text,
background and music paths, and the 5 optional character path and clip
entries, with `None` fields going through `null` and back to `None`. -/
theorem scenario_roundtrip (s : ScenarioP) :
    scenarioFromJson (scenarioToJson s) = some s := by
  obtain ⟨scenes⟩ := s
  simp only [scenarioToJson, scenarioFromJson_obj, scenes_roundtrip,
    Option.some_bind]

end AEFR
